import Mathlib

/-!
Shallow embedding of the netbox-cisco-support plugin core
(src/netbox_cisco_support/views.py and src/netbox_cisco_support/cisco_client.py).

Python dicts/objects are modelled as Lean structures with Option fields for
possibly-absent keys; Python truthiness of a string is nonemptiness, of an
Option String presence-and-nonemptiness, of a list nonemptiness.  Upstream
HTTP traffic is modelled by explicit oracles (lists of outcomes consumed in
order, or one response record per endpoint), and the set of upstream calls a
code path issues is returned as an explicit trace.
-/

namespace NetboxCisco

/-- Truthiness of a Python string: nonempty. -/
def strTruthy (s : String) : Bool := !(s == "")

/-- Truthiness of an optional Python string value (None or a string). -/
def optTruthy : Option String → Bool
  | some s => !(s == "")
  | none => false

/-- Python `a or b` on two optional strings: `a` when truthy, else `b`. -/
def orTruthy (a b : Option String) : Option String :=
  if optTruthy a then a else b

/-! ## Bug records and client-side severity filtering (views.py lines 167-176) -/

/-- A Python severity value as it may appear in a bug dict: a string, an int,
or the key being absent. -/
inductive Sev where
  | str (v : String)
  | int (v : Int)
  | absent
deriving DecidableEq, Repr

/-- Membership test from views.py line 171:
severity in the Python list of the strings "1","2","3" and the ints 1,2,3. -/
def isHighSeverity : Sev → Bool
  | .str v => v == "1" || v == "2" || v == "3"
  | .int v => v == 1 || v == 2 || v == 3
  | .absent => false

/-- A bug entry from a bug-list response. -/
structure BugRec where
  bugId : String := ""
  severity : Sev := .absent
deriving DecidableEq, Repr

/-- Client-side bug filtering, views.py lines 169-174: keep severity 1-3
entries, truncate to 5; when that list is empty fall back to the first 5
unfiltered entries. -/
def filterTop5 (bugs : List BugRec) : List BugRec :=
  let high := (bugs.filter (fun b => isHighSeverity b.severity)).take 5
  if high.isEmpty then bugs.take 5 else high

/-! ## Serial parsing and device-field resolution (views.py lines 283-345) -/

/-- Python str.split on a single separator character, as a structural
recursion over the character list (Lean's own splitter is not
kernel-reducible). -/
def pySplitAux (sep : Char) : List Char → List Char → List (List Char)
  | [], acc => [acc.reverse]
  | c :: rest, acc =>
    if c == sep then acc.reverse :: pySplitAux sep rest []
    else pySplitAux sep rest (c :: acc)

def pySplit (sep : Char) (s : String) : List String :=
  (pySplitAux sep s.toList []).map (fun g => String.mk g)

/-- Python str.strip: drop leading and trailing whitespace. -/
def pyStrip (s : String) : String :=
  String.mk (((s.toList.dropWhile Char.isWhitespace).reverse.dropWhile
    Char.isWhitespace).reverse)

/-- views.py _parse_serials: split the serial field on commas, strip each
segment, drop empty segments; empty input gives the empty list. -/
def parseSerials (serialField : String) : List String :=
  if serialField == "" then []
  else ((pySplit ',' serialField).map pyStrip).filter (fun s => !(s == ""))

/-- The device record as seen by the view (external, read-only). -/
structure DeviceType where
  manufacturer : Option String := none
  model : Option String := none
deriving DecidableEq, Repr

structure Device where
  serial : String := ""
  deviceType : Option DeviceType := none
  platformName : Option String := none
  customFields : List (String × String) := []
deriving DecidableEq, Repr

/-- Dictionary get on the device custom-field data. -/
def lookupCF (d : Device) (k : String) : Option String :=
  (d.customFields.find? (fun e => e.1 == k)).map (fun e => e.2)

/-- Maximal leading run of ASCII digits of a character list (used by the
embedding of the version regex in views.py line 320). -/
def leadingDigits : List Char → List Char × List Char
  | [] => ([], [])
  | c :: rest =>
    if c.isDigit then
      let p := leadingDigits rest
      (c :: p.1, p.2)
    else ([], c :: rest)

/-- Try to match the regex d+[.]d+([.]d+)? at the start of the list
(greedy optional third group, as Python re behaves on this pattern). -/
def matchVersionAt (cs : List Char) : Option (List Char) :=
  let pa := leadingDigits cs
  if pa.1.isEmpty then none
  else
    match pa.2 with
    | '.' :: r2 =>
      let pb := leadingDigits r2
      if pb.1.isEmpty then none
      else
        match pb.2 with
        | '.' :: r4 =>
          let pc := leadingDigits r4
          if pc.1.isEmpty then some (pa.1 ++ ['.'] ++ pb.1)
          else some (pa.1 ++ ['.'] ++ pb.1 ++ ['.'] ++ pc.1)
        | _ => some (pa.1 ++ ['.'] ++ pb.1)
    | _ => none

/-- Leftmost match of the dotted-version pattern in a string
(views.py line 320, re.search). -/
def firstVersionMatch : List Char → Option (List Char)
  | [] => none
  | c :: rest =>
    match matchVersionAt (c :: rest) with
    | some m => some m
    | none => firstVersionMatch rest

def extractVersion (s : String) : Option String :=
  (firstVersionMatch s.toList).map (fun cs => String.mk cs)

/-- Custom fields checked for a software version, in order (views.py line 310). -/
def versionFields : List String :=
  ["software_version", "sw_version", "ios_version", "version"]

/-- views.py _get_software_version: first truthy version custom field, else a
dotted version extracted from the platform name, else none. -/
def getSoftwareVersion (d : Device) : Option String :=
  let fromCF : Option String :=
    if d.customFields.isEmpty then none
    else versionFields.findSome? (fun f =>
      match lookupCF d f with
      | some v => if v == "" then none else some v
      | none => none)
  match fromCF with
  | some v => some v
  | none =>
    match d.platformName with
    | some p => if p == "" then none else extractVersion p
    | none => none

/-- Custom fields checked for stack members, in order (views.py line 339). -/
def stackFields : List String :=
  ["stack_serials", "stack_members", "member_serials"]

/-- Separator characters of the re.split pattern in views.py line 342. -/
def isStackSep (c : Char) : Bool := c == ',' || c == ';' || c.isWhitespace

/-- Split a custom-field value on commas, semicolons and whitespace, dropping
empty segments (views.py line 342). -/
def splitOnSeps (s : String) : List String :=
  let groups := s.toList.foldr
    (fun c acc =>
      if isStackSep c then [] :: acc
      else
        match acc with
        | g :: rest => (c :: g) :: rest
        | [] => [[c]])
    [[]]
  (groups.map (fun g => String.mk g)).filter (fun x => !(x == ""))

/-- views.py _get_stack_serials: first truthy stack custom field, parsed. -/
def getStackSerials (d : Device) : List String :=
  if d.customFields.isEmpty then []
  else
    match stackFields.findSome? (fun f =>
      match lookupCF d f with
      | some v => if v == "" then none else some v
      | none => none) with
    | some v => splitOnSeps v
    | none => []

/-- views.py line 111: primary serial is the first parsed serial, falling back
to the raw serial field when parsing yields nothing. -/
def primarySerial (d : Device) : String :=
  (parseSerials d.serial).headD d.serial

/-- views.py lines 112-114: stack serials are the parsed tail when the serial
field held more than one entry, else the stack custom fields. -/
def stackSerialsOf (d : Device) : List String :=
  let xs := parseSerials d.serial
  if xs.length > 1 then xs.tail else getStackSerials d

/-! ## Per-endpoint response records (the JSON dicts returned by the client).
The error field models the presence of an "error" key; cached models the
"cached" key the client annotates. Payload parts not inspected by the view
are kept abstract as strings. -/

structure ProductRec where
  basePid : Option String := none
  orderablePid : Option String := none
deriving DecidableEq, Repr

structure ProductResp where
  error : Option String := none
  productList : List ProductRec := []
  cached : Bool := false
deriving DecidableEq, Repr

structure EoxResp where
  error : Option String := none
  records : List String := []
  cached : Bool := false
deriving DecidableEq, Repr

structure BugsResp where
  error : Option String := none
  bugs : List BugRec := []
  cached : Bool := false
deriving DecidableEq, Repr

structure PsirtResp where
  error : Option String := none
  advisories : List String := []
  cached : Bool := false
deriving DecidableEq, Repr

structure SoftwareResp where
  error : Option String := none
  payload : String := ""
  cached : Bool := false
deriving DecidableEq, Repr

/-- A coverage list member; isCovered models s.get("is_covered"). -/
structure CovRec where
  sn : String := ""
  isCovered : Option String := none
deriving DecidableEq, Repr

structure CoverageResp where
  error : Option String := none
  serialNumbers : List CovRec := []
  cached : Bool := false
deriving DecidableEq, Repr

/-- The oracle fixing what each client endpoint would return during one view
run (each endpoint is consulted at most once per run). -/
structure Oracle where
  product : ProductResp := {}
  eox : EoxResp := {}
  bugsKeyword : BugsResp := {}
  bugsProduct : BugsResp := {}
  bugsNameVer : BugsResp := {}
  bugsPidVer : BugsResp := {}
  psirt : PsirtResp := {}
  software : SoftwareResp := {}
  coverage : CoverageResp := {}
  coverageBulk : CoverageResp := {}
deriving Repr

/-- One upstream client call issued by the view, with its arguments. -/
inductive Call where
  | productInfo (serial : String)
  | eoxBySerial (serial : String)
  | bugsByKeyword (kw : String)
  | bugsByProduct (pid : String)
  | bugsByNameVer (name ver : String)
  | bugsByPidVer (pid ver : String)
  | psirtByProduct (pid : String)
  | softwareSuggestions (pid : String)
  | coverageStatus (serial : String)
  | coverageBulk (serials : List String)
deriving DecidableEq, Repr

/-! ## Aggregated view result (the render context of views.py lines 260-281,
plus the trace of issued upstream calls). -/

structure BugsData where
  bugs : List BugRec := []
  cached : Bool := false
deriving DecidableEq, Repr

structure BugsVerData where
  bugs : List BugRec := []
  version : Option String := none
  cached : Bool := false
deriving DecidableEq, Repr

structure PsirtData where
  advisories : List String := []
  total : Nat := 0
  cached : Bool := false
deriving DecidableEq, Repr

structure SoftwareData where
  payload : String := ""
  cached : Bool := false
deriving DecidableEq, Repr

structure StackCovData where
  members : List CovRec := []
  total : Nat := 0
  covered : Nat := 0
  notCovered : Nat := 0
  cached : Bool := false
deriving DecidableEq, Repr

structure ViewResult where
  showTab : Bool := false
  error : Option String := none
  serialNumber : Option String := none
  productId : Option String := none
  ccSeries : Option String := none
  softwareVersion : Option String := none
  productData : Option (ProductRec × Bool) := none
  eoxData : Option (String × Bool) := none
  bugsData : Option BugsData := none
  bugsVersionData : Option BugsVerData := none
  psirtData : Option PsirtData := none
  softwareData : Option SoftwareData := none
  coverageData : Option (CovRec × Bool) := none
  stackCoverageData : Option StackCovData := none
  trace : List Call := []
deriving DecidableEq, Repr

/-- Plugin configuration; patMatch models re.search of the configured
manufacturer_pattern with re.IGNORECASE applied to a manufacturer name. -/
structure PluginConfig where
  clientId : Option String := none
  clientSecret : Option String := none
  patMatch : String → Bool := fun _ => false

/-- Case-insensitive search helper: does the lowered character list contain
the word cisco. -/
def containsLowerCisco : List Char → Bool
  | [] => false
  | c :: rest =>
    if (c :: rest).take 5 == ['c', 'i', 's', 'c', 'o'] then true
    else containsLowerCisco rest

/-- The compiled default pattern "cisco": case-insensitive substring search. -/
def ciscoDefaultMatch (name : String) : Bool :=
  containsLowerCisco (name.toList.map Char.toLower)

/-- views.py should_show_cisco_support_tab: nonempty serial, a device type
with a manufacturer, and the manufacturer name matching the pattern. -/
def shouldShowTab (patMatch : String → Bool) (d : Device) : Bool :=
  if d.serial == "" then false
  else
    match d.deviceType with
    | none => false
    | some dt =>
      match dt.manufacturer with
      | none => false
      | some name => patMatch name

/-- cisco_client.py get_client: a client exists iff both credentials are
configured and truthy. -/
def clientConfigured (cfg : PluginConfig) : Bool :=
  optTruthy cfg.clientId && optTruthy cfg.clientSecret

/-- views.py lines 125-127: base_pid or orderable_pid of the first product. -/
def productIdOf (resp : ProductResp) : Option String :=
  if resp.error.isSome then none
  else
    match resp.productList with
    | [] => none
    | p :: _ => orTruthy p.basePid p.orderablePid

/-- views.py lines 122-128: the first product record with its cached flag. -/
def productDataOf (resp : ProductResp) : Option (ProductRec × Bool) :=
  if resp.error.isSome then none
  else
    match resp.productList with
    | [] => none
    | p :: _ => some (p, resp.cached)

/-- views.py lines 131-133: device type model when present and truthy. -/
def deviceTypeModelOf (d : Device) : Option String :=
  match d.deviceType with
  | some dt => if optTruthy dt.model then dt.model else none
  | none => none

/-- views.py lines 145-147: the cc_series custom field. -/
def ccSeriesOf (d : Device) : Option String :=
  if d.customFields.isEmpty then none else lookupCF d "cc_series"

/-- Whether an optional bug response carries an "error" key. -/
def respHasError : Option BugsResp → Bool
  | some r => r.error.isSome
  | none => false

/-- views.py lines 245-258: stack coverage summary from a bulk response body. -/
def stackSummary (resp : CoverageResp) : Option StackCovData :=
  match resp.serialNumbers with
  | [] => none
  | l =>
    let covered := (l.filter (fun s => s.isCovered == some "YES")).length
    some { members := l, total := l.length, covered := covered,
           notCovered := l.length - covered, cached := resp.cached }

def gateFailMsg : String := "Device does not meet requirements for Cisco Support lookup"

def credsMsg : String := "Cisco Support API credentials not configured"

/-- The main body of DeviceCiscoSupportView.get (views.py lines 91-281),
after the two gates have passed.  Each doX boolean is the Python guard of
the corresponding step; the trace lists the upstream calls issued. -/
def deviceGetMain (d : Device) (o : Oracle) : ViewResult :=
  let softwareVersion := getSoftwareVersion d
  let serialNumber := primarySerial d
  let stackSerials := stackSerialsOf d
  let error := o.product.error
  let errT := optTruthy error
  let productData := productDataOf o.product
  let productId := productIdOf o.product
  let deviceTypeModel := deviceTypeModelOf d
  let ccSeries := ccSeriesOf d
  let bugPid := orTruthy productId deviceTypeModel
  let doEox := strTruthy serialNumber && !errT
  let eoxData :=
    if doEox && !o.eox.error.isSome then
      match o.eox.records with
      | [] => none
      | r :: _ => some (r, o.eox.cached)
    else none
  let doKw := optTruthy deviceTypeModel && !errT
  let kwResp : Option BugsResp := if doKw then some o.bugsKeyword else none
  let doPid := (kwResp.isNone || respHasError kwResp) && optTruthy bugPid && !errT
  let bugsResponse := if doPid then some o.bugsProduct else kwResp
  let bugsData :=
    match bugsResponse with
    | some r =>
      if r.error.isSome then none
      else some { bugs := filterTop5 r.bugs, cached := r.cached }
    | none => none
  let doVer := optTruthy softwareVersion && !errT
  let doNameVer := doVer && optTruthy ccSeries
  let nvResp : Option BugsResp := if doNameVer then some o.bugsNameVer else none
  let doPidVer := doVer && (nvResp.isNone || respHasError nvResp) && optTruthy bugPid
  let verResp := if doPidVer then some o.bugsPidVer else nvResp
  let bugsVersionData :=
    match verResp with
    | some r =>
      if r.error.isSome then none
      else some { bugs := filterTop5 r.bugs, version := softwareVersion,
                  cached := r.cached }
    | none => none
  let doPsirt := optTruthy productId && !errT
  let psirtData :=
    if doPsirt && !o.psirt.error.isSome then
      some { advisories := o.psirt.advisories.take 10,
             total := o.psirt.advisories.length, cached := o.psirt.cached }
    else none
  let doSw := optTruthy productId && !errT
  let softwareData :=
    if doSw && !o.software.error.isSome then
      some { payload := o.software.payload, cached := o.software.cached }
    else none
  let doCov := strTruthy serialNumber && !errT
  let coverageData :=
    if doCov && !o.coverage.error.isSome then
      match o.coverage.serialNumbers with
      | [] => none
      | c :: _ => some (c, o.coverage.cached)
    else none
  let doStack := !stackSerials.isEmpty && !errT
  let bulkSerials := serialNumber :: stackSerials.filter (fun s => !(s == serialNumber))
  let stackCoverageData :=
    if doStack && !o.coverageBulk.error.isSome then stackSummary o.coverageBulk
    else none
  { showTab := true
    error := error
    serialNumber := some serialNumber
    productId := productId
    ccSeries := ccSeries
    softwareVersion := softwareVersion
    productData := productData
    eoxData := eoxData
    bugsData := bugsData
    bugsVersionData := bugsVersionData
    psirtData := psirtData
    softwareData := softwareData
    coverageData := coverageData
    stackCoverageData := stackCoverageData
    trace := [Call.productInfo serialNumber]
      ++ (if doEox then [Call.eoxBySerial serialNumber] else [])
      ++ (if doKw then [Call.bugsByKeyword (deviceTypeModel.getD "")] else [])
      ++ (if doPid then [Call.bugsByProduct (bugPid.getD "")] else [])
      ++ (if doNameVer then [Call.bugsByNameVer (ccSeries.getD "") (softwareVersion.getD "")] else [])
      ++ (if doPidVer then [Call.bugsByPidVer (bugPid.getD "") (softwareVersion.getD "")] else [])
      ++ (if doPsirt then [Call.psirtByProduct (productId.getD "")] else [])
      ++ (if doSw then [Call.softwareSuggestions (productId.getD "")] else [])
      ++ (if doCov then [Call.coverageStatus serialNumber] else [])
      ++ (if doStack then [Call.coverageBulk bulkSerials] else []) }

/-- DeviceCiscoSupportView.get (views.py lines 59-281): the two gates, then
the aggregation body.  No upstream call is issued by either early return. -/
def deviceGet (cfg : PluginConfig) (d : Device) (o : Oracle) : ViewResult :=
  if !(shouldShowTab cfg.patMatch d) then
    { showTab := false, error := some gateFailMsg }
  else if !(clientConfigured cfg) then
    { showTab := true, error := some credsMsg }
  else deviceGetMain d o

/-! ## Token handling (cisco_client.py _get_token, lines 39-79)

The Django cache entries for tokens are modelled as an association list
key to (token, ttl); the instance state as an optional token plus expiry
instant.  Network outcomes are oracles consumed in order, and the events a
run performs (token exchange, GET, invalidation) are returned as a list. -/

inductive TEvent where
  | exchange
  | getReq
  | invalidate
deriving DecidableEq, Repr

inductive ExchangeOutcome where
  | success (accessToken : String) (expiresIn : Int)
  | failure
deriving DecidableEq, Repr

inductive GetOutcome where
  | timeout
  | transportErr (msg : String)
  | resp (status : Nat) (body : String)
deriving DecidableEq, Repr

/-- The result dict of _make_request: an error dict or a parsed JSON body. -/
inductive ReqResult where
  | err (msg : String)
  | ok (body : String)
deriving DecidableEq, Repr

structure TokState where
  shared : List (String × String × Int) := []
  tok : Option String := none
  tokExpiry : Int := 0
deriving DecidableEq, Repr

def lookupShared : List (String × String × Int) → String → Option (String × Int)
  | [], _ => none
  | e :: rest, key => if e.1 == key then some e.2 else lookupShared rest key

def setShared (l : List (String × String × Int)) (key v : String) (ttl : Int) :
    List (String × String × Int) :=
  (key, v, ttl) :: l.filter (fun e => !(e.1 == key))

def delShared (l : List (String × String × Int)) (key : String) :
    List (String × String × Int) :=
  l.filter (fun e => !(e.1 == key))

/-- cisco_client.py line 41: the token cache key, derived from the first 8
characters of the client id (the secret is never part of the key). -/
def tokenCacheKey (clientId : String) : String :=
  "cisco_support_token_" ++ clientId.take 8

/-- The Django-cache token consultation: a hit only for a truthy value. -/
def sharedCachedToken (st : TokState) (key : String) : Option String :=
  match lookupShared st.shared key with
  | some e => if e.1 == "" then none else some e.1
  | none => none

/-- cisco_client.py line 49: instance token valid when truthy and unexpired. -/
def localTokenValid (st : TokState) (now : Int) : Bool :=
  match st.tok with
  | some t => !(t == "") && decide (now < st.tokExpiry)
  | none => false

/-- cisco_client.py _get_token: shared cache, then instance cache, then a
client-credentials exchange; on success the token is stored in both, with
TTL max(expires_in - 300, 60). -/
def getToken (clientId : String) (now : Int) (st : TokState)
    (ex : List ExchangeOutcome) :
    Option String × TokState × List ExchangeOutcome × List TEvent :=
  let key := tokenCacheKey clientId
  match sharedCachedToken st key with
  | some t => (some t, st, ex, [])
  | none =>
    if localTokenValid st now then (st.tok, st, ex, [])
    else
      match ex with
      | ExchangeOutcome.success tok e :: rest =>
        let dur := max (e - 300) 60
        (some tok,
         { shared := setShared st.shared key tok dur,
           tok := some tok, tokExpiry := now + dur },
         rest, [TEvent.exchange])
      | ExchangeOutcome.failure :: rest => (none, st, rest, [TEvent.exchange])
      | [] => (none, st, [], [TEvent.exchange])

/-- requests raise_for_status followed by the except clause: 4xx/5xx statuses
become error results, others return the parsed body. -/
def raiseForStatus (status : Nat) (body : String) : ReqResult :=
  if 400 ≤ status && status < 600 then
    ReqResult.err ("HTTP error " ++ toString status)
  else ReqResult.ok body

/-- cisco_client.py _make_request (lines 81-126): authenticate, issue the
GET; on a 401 invalidate the token (shared and local), re-exchange, and
retry exactly once when a token was obtained; all timeouts, transport
errors and HTTP error statuses come back as error results. -/
def makeRequest (clientId : String) (now : Int) (st : TokState)
    (ex : List ExchangeOutcome) (gets : List GetOutcome) :
    ReqResult × TokState × List TEvent :=
  let a := getToken clientId now st ex
  match a.1 with
  | none => (ReqResult.err "Failed to authenticate with Cisco API", a.2.1, a.2.2.2)
  | some t =>
    if t == "" then
      (ReqResult.err "Failed to authenticate with Cisco API", a.2.1, a.2.2.2)
    else
      let st1 := a.2.1
      let ex1 := a.2.2.1
      let ev1 := a.2.2.2 ++ [TEvent.getReq]
      match gets.headD GetOutcome.timeout with
      | GetOutcome.timeout => (ReqResult.err "Request timed out", st1, ev1)
      | GetOutcome.transportErr m => (ReqResult.err m, st1, ev1)
      | GetOutcome.resp status body =>
        if status == 401 then
          let key := tokenCacheKey clientId
          let st2 : TokState :=
            { shared := delShared st1.shared key, tok := none, tokExpiry := 0 }
          let b := getToken clientId now st2 ex1
          let ev2 := ev1 ++ [TEvent.invalidate] ++ b.2.2.2
          let retry : Bool :=
            match b.1 with
            | some t2 => !(t2 == "")
            | none => false
          if retry then
            let ev3 := ev2 ++ [TEvent.getReq]
            match (gets.drop 1).headD GetOutcome.timeout with
            | GetOutcome.timeout => (ReqResult.err "Request timed out", b.2.1, ev3)
            | GetOutcome.transportErr m => (ReqResult.err m, b.2.1, ev3)
            | GetOutcome.resp s2 b2 => (raiseForStatus s2 b2, b.2.1, ev3)
          else (raiseForStatus status body, b.2.1, ev2)
        else (raiseForStatus status body, st1, ev1)

/-! ## Cached endpoint methods (cisco_client.py lines 128-468)

Every API-category method shares the shape: consult the response cache,
else run _make_request; only results without the error marker are written
back, annotated cached=false; hits are returned annotated cached=true.
The _make_request outcome is passed in as a parameter (what the request
would produce on a miss). -/

structure CResult where
  error : Option String := none
  cached : Bool := false
  body : String := ""
deriving DecidableEq, Repr

def lookupResp : List (String × CResult) → String → Option CResult
  | [], _ => none
  | e :: rest, key => if e.1 == key then some e.2 else lookupResp rest key

def setResp (c : List (String × CResult)) (key : String) (v : CResult) :
    List (String × CResult) :=
  (key, v) :: c.filter (fun e => !(e.1 == key))

/-- cisco_client.py get_product_info (lines 128-149). -/
def getProductInfoM (serial : String) (c : List (String × CResult))
    (mk : CResult) : CResult × List (String × CResult) :=
  let key := "cisco_product_" ++ serial
  match lookupResp c key with
  | some hit => ({ hit with cached := true }, c)
  | none =>
    if mk.error.isSome then (mk, c)
    else
      let r := { mk with cached := false }
      (r, setResp c key r)

/-- The cache key of the bulk coverage endpoint; the Python key hashes the
comma-joined truncated serial string, modelled here by the string itself. -/
def coverageBulkKey (serials : List String) : String :=
  "cisco_coverage_bulk_" ++ String.intercalate "," (serials.take 75)

/-- cisco_client.py get_coverage_summary_bulk (lines 437-468): explicit
error on an empty serial list, truncation to 75 serials before the call;
the third component is the serial list of the upstream call, when issued. -/
def getCoverageSummaryBulkM (serials : List String)
    (c : List (String × CResult)) (mk : CResult) :
    CResult × List (String × CResult) × Option (List String) :=
  if serials.isEmpty then
    ({ error := some "No serial numbers provided", cached := false, body := "" },
     c, none)
  else
    let serials75 := serials.take 75
    let key := coverageBulkKey serials
    match lookupResp c key with
    | some hit => ({ hit with cached := true }, c, none)
    | none =>
      if mk.error.isSome then (mk, c, some serials75)
      else
        let r := { mk with cached := false }
        (r, setResp c key r, some serials75)

/-! ## Shared sample inputs for concrete instantiations -/

/-- A configuration with credentials set and an always-matching pattern. -/
def cfgTrue : PluginConfig :=
  { clientId := some "i", clientSecret := some "s", patMatch := fun _ => true }

/-- A plain Cisco device with serial SN1 and device type model C9300-48P. -/
def devSN1 : Device :=
  { serial := "SN1",
    deviceType := some { manufacturer := some "Cisco", model := some "C9300-48P" } }

/-! ## Helper lemmas -/

theorem lookupShared_delShared (l : List (String × String × Int)) (k : String) :
    lookupShared (delShared l k) k = none := by
  induction l with
  | nil => rfl
  | cons e rest ih =>
    by_cases h : e.1 = k
    · simp [delShared, h] at ih ⊢
      simpa [delShared] using ih
    · simp only [delShared, List.filter_cons]
      have hb : (!(e.1 == k)) = true := by simp [h]
      rw [hb]
      simp only [lookupShared]
      have hb2 : (e.1 == k) = false := by simp [h]
      rw [hb2]
      simpa [delShared] using ih

theorem lookupShared_setShared_self (l : List (String × String × Int))
    (k v : String) (ttl : Int) :
    lookupShared (setShared l k v ttl) k = some (v, ttl) := by
  simp [setShared, lookupShared]

theorem lookupResp_exists_mem (c : List (String × CResult)) (k : String)
    (v : CResult) (h : lookupResp c k = some v) : ∃ p ∈ c, p.2 = v := by
  induction c with
  | nil => cases h
  | cons e rest ih =>
    by_cases he : e.1 = k
    · simp [lookupResp, he] at h
      exact ⟨e, List.mem_cons_self e rest, h⟩
    · have hb : (e.1 == k) = false := by simp [he]
      simp only [lookupResp, hb] at h
      simp at h
      obtain ⟨p, hp, hpv⟩ := ih h
      exact ⟨p, List.mem_cons_of_mem e hp, hpv⟩

theorem mem_setResp (c : List (String × CResult)) (k : String) (v : CResult)
    (p : String × CResult) (h : p ∈ setResp c k v) : p = (k, v) ∨ p ∈ c := by
  simp only [setResp, List.mem_cons] at h
  rcases h with h | h
  · exact Or.inl h
  · exact Or.inr (List.mem_of_mem_filter h)

theorem sharedCachedToken_delShared (l : List (String × String × Int))
    (tk : Option String) (te : Int) (k : String) :
    sharedCachedToken { shared := delShared l k, tok := tk, tokExpiry := te } k = none := by
  simp [sharedCachedToken, lookupShared_delShared]

theorem localTokenValid_none (sh : List (String × String × Int)) (te now : Int) :
    localTokenValid { shared := sh, tok := none, tokExpiry := te } now = false := rfl

theorem stackSummary_sound (resp : CoverageResp) (sc : StackCovData)
    (h : stackSummary resp = some sc) :
    sc.covered = (sc.members.filter (fun s => s.isCovered == some "YES")).length ∧
    sc.notCovered = sc.total - sc.covered ∧
    sc.covered + sc.notCovered = sc.total := by
  cases hl : resp.serialNumbers with
  | nil => rw [stackSummary, hl] at h; cases h
  | cons a l =>
    rw [stackSummary, hl] at h
    simp only [Option.some.injEq] at h
    subst h
    refine ⟨rfl, rfl, ?_⟩
    exact Nat.add_sub_cancel' (List.length_filter_le _ _)

/-! ## Claim theorems -/

/-- C2: for every successful bug-list response the aggregated general-bugs
result is the severity-1-2-3 sublist in original order truncated to 5, or
the first 5 unfiltered entries when that sublist is empty; in the
aggregator a successful keyword bug response yields exactly this filtered
result; and on severities [1,4,5,2,6] the result is the severity-1 and
severity-2 entries in original order. -/
theorem general_bugs_filtered_top5 :
    (∀ bugs : List BugRec,
      filterTop5 bugs =
        if bugs.filter (fun b => isHighSeverity b.severity) = [] then bugs.take 5
        else (bugs.filter (fun b => isHighSeverity b.severity)).take 5)
    ∧ (∀ (cfg : PluginConfig) (d : Device) (o : Oracle) (m : String),
        shouldShowTab cfg.patMatch d = true →
        clientConfigured cfg = true →
        o.product.error = none →
        deviceTypeModelOf d = some m →
        m ≠ "" →
        o.bugsKeyword.error = none →
        (deviceGet cfg d o).bugsData =
          some { bugs := filterTop5 o.bugsKeyword.bugs, cached := o.bugsKeyword.cached })
    ∧ filterTop5
        [{ bugId := "b1", severity := Sev.int 1 }, { bugId := "b2", severity := Sev.int 4 },
         { bugId := "b3", severity := Sev.int 5 }, { bugId := "b4", severity := Sev.int 2 },
         { bugId := "b5", severity := Sev.int 6 }] =
        [{ bugId := "b1", severity := Sev.int 1 }, { bugId := "b4", severity := Sev.int 2 }] := by
  refine ⟨?_, ?_, by decide⟩
  · intro bugs
    by_cases h : bugs.filter (fun b => isHighSeverity b.severity) = []
    · simp [filterTop5, h]
    · have ht : ((bugs.filter (fun b => isHighSeverity b.severity)).take 5).isEmpty = false := by
        cases hf : bugs.filter (fun b => isHighSeverity b.severity) with
        | nil => exact absurd hf h
        | cons a l => simp [List.take]
      simp [filterTop5, ht, h]
  · intro cfg d o m h1 h2 h3 h4 h5 h6
    have h5b : (m == "") = false := by simp [h5]
    simp [deviceGet, h1, h2, deviceGetMain, h3, h4, h6, optTruthy, respHasError, h5b]

/-- Witness for C2 at a concrete device and oracle. -/
theorem general_bugs_filtered_top5_witness :
    (deviceGet cfgTrue devSN1
        { bugsKeyword := { bugs := [{ bugId := "k1", severity := Sev.str "3" }] } }).bugsData =
      some { bugs := filterTop5 [{ bugId := "k1", severity := Sev.str "3" }], cached := false } :=
  general_bugs_filtered_top5.2.1 cfgTrue devSN1
    { bugsKeyword := { bugs := [{ bugId := "k1", severity := Sev.str "3" }] } }
    "C9300-48P" rfl rfl rfl rfl (by decide) rfl

/-- C7: serial parsing splits on commas, strips each segment and drops empty
segments (also for the empty field, where the Python early return and the
pipeline agree); every parsed element is nonempty; the first parsed element
is the view's primary serial and the rest its stack members; and
"FCW1,  FCW2 ,FCW3" gives primary FCW1 and stack members FCW2, FCW3. -/
theorem parse_serials_spec :
    (∀ s : String,
      parseSerials s = ((pySplit ',' s).map pyStrip).filter (fun x => !(x == "")))
    ∧ (∀ s : String, ∀ x ∈ parseSerials s, x ≠ "")
    ∧ (∀ d : Device, 1 < (parseSerials d.serial).length →
        primarySerial d = (parseSerials d.serial).headD d.serial ∧
        stackSerialsOf d = (parseSerials d.serial).tail)
    ∧ parseSerials "FCW1,  FCW2 ,FCW3" = ["FCW1", "FCW2", "FCW3"]
    ∧ primarySerial { serial := "FCW1,  FCW2 ,FCW3" } = "FCW1"
    ∧ stackSerialsOf { serial := "FCW1,  FCW2 ,FCW3" } = ["FCW2", "FCW3"] := by
  have hsplit : ∀ s : String,
      parseSerials s = ((pySplit ',' s).map pyStrip).filter (fun x => !(x == "")) := by
    intro s
    by_cases h : s = ""
    · subst h; decide
    · have hb : (s == "") = false := by simp [h]
      simp [parseSerials, hb]
  refine ⟨hsplit, ?_, ?_, by decide, by decide, by decide⟩
  · intro s x hx
    rw [hsplit s] at hx
    have := List.of_mem_filter hx
    simpa using this
  · intro d hd
    exact ⟨rfl, by simp [stackSerialsOf, hd]⟩

/-- Witness for C7: the quantified parts instantiated at the example input. -/
theorem parse_serials_spec_witness :
    parseSerials "FCW1,  FCW2 ,FCW3" =
      (((pySplit ',' "FCW1,  FCW2 ,FCW3").map pyStrip).filter
        (fun x => !(x == ""))) ∧ ("FCW1" : String) ≠ "" ∧
    stackSerialsOf { serial := "FCW1,  FCW2 ,FCW3" } =
      (parseSerials "FCW1,  FCW2 ,FCW3").tail :=
  ⟨parse_serials_spec.1 "FCW1,  FCW2 ,FCW3",
   parse_serials_spec.2.1 "FCW1,  FCW2 ,FCW3" "FCW1" (by decide),
   (parse_serials_spec.2.2.1 { serial := "FCW1,  FCW2 ,FCW3" } (by decide)).2⟩

/-- C1 counterexample: at a concrete device whose product-info step errors,
the error is recorded but neither the EoX-by-serial call nor the
coverage-by-serial call is issued; the claim that they are issued despite
the product-info error is false on the code. -/
theorem product_error_eox_coverage_not_issued :
    (deviceGet cfgTrue devSN1 { product := { error := some "boom" } }).error = some "boom"
    ∧ Call.eoxBySerial "SN1" ∉
        (deviceGet cfgTrue devSN1 { product := { error := some "boom" } }).trace
    ∧ Call.coverageStatus "SN1" ∉
        (deviceGet cfgTrue devSN1 { product := { error := some "boom" } }).trace := by
  decide

/-- C1 amended: when the product-info step returns a nonempty error message,
the aggregator records it and suppresses every subsequent step, including
the serial-only EoX and coverage calls; the product-info call is the only
upstream call of the run. -/
theorem product_error_suppresses_all_steps :
    ∀ (cfg : PluginConfig) (d : Device) (o : Oracle) (msg : String),
      shouldShowTab cfg.patMatch d = true →
      clientConfigured cfg = true →
      o.product.error = some msg →
      msg ≠ "" →
      (deviceGet cfg d o).error = some msg ∧
      (deviceGet cfg d o).trace = [Call.productInfo (primarySerial d)] ∧
      (deviceGet cfg d o).eoxData = none ∧
      (deviceGet cfg d o).coverageData = none ∧
      (deviceGet cfg d o).bugsData = none ∧
      (deviceGet cfg d o).bugsVersionData = none ∧
      (deviceGet cfg d o).psirtData = none ∧
      (deviceGet cfg d o).softwareData = none ∧
      (deviceGet cfg d o).stackCoverageData = none := by
  intro cfg d o msg h1 h2 h3 h4
  have h4b : (msg == "") = false := by simp [h4]
  simp [deviceGet, h1, h2, deviceGetMain, h3, optTruthy, h4b]

/-- Witness for C1 amended at the concrete error device. -/
theorem product_error_suppresses_all_steps_witness :
    (deviceGet cfgTrue devSN1 { product := { error := some "bad" } }).error = some "bad" ∧
    (deviceGet cfgTrue devSN1 { product := { error := some "bad" } }).trace =
      [Call.productInfo (primarySerial devSN1)] ∧
    (deviceGet cfgTrue devSN1 { product := { error := some "bad" } }).eoxData = none ∧
    (deviceGet cfgTrue devSN1 { product := { error := some "bad" } }).coverageData = none ∧
    (deviceGet cfgTrue devSN1 { product := { error := some "bad" } }).bugsData = none ∧
    (deviceGet cfgTrue devSN1 { product := { error := some "bad" } }).bugsVersionData = none ∧
    (deviceGet cfgTrue devSN1 { product := { error := some "bad" } }).psirtData = none ∧
    (deviceGet cfgTrue devSN1 { product := { error := some "bad" } }).softwareData = none ∧
    (deviceGet cfgTrue devSN1 { product := { error := some "bad" } }).stackCoverageData = none :=
  product_error_suppresses_all_steps cfgTrue devSN1
    { product := { error := some "bad" } } "bad" rfl rfl rfl (by decide)

/-- C6: devices with an empty serial, or with a manufacturer name the
configured pattern does not match, yield show equal false and an empty
upstream trace; devices passing the gate with unconfigured credentials
yield show equal true, the credentials error, and an empty trace. -/
theorem gate_and_credentials :
    ∀ (cfg : PluginConfig) (d : Device) (o : Oracle),
      ((d.serial = "" ∨
        (∃ dt name, d.deviceType = some dt ∧ dt.manufacturer = some name ∧
          cfg.patMatch name = false)) →
        (deviceGet cfg d o).showTab = false ∧ (deviceGet cfg d o).trace = []) ∧
      (shouldShowTab cfg.patMatch d = true → clientConfigured cfg = false →
        (deviceGet cfg d o).showTab = true ∧
        (deviceGet cfg d o).error = some credsMsg ∧
        (deviceGet cfg d o).trace = []) := by
  intro cfg d o
  constructor
  · intro h
    have hg : shouldShowTab cfg.patMatch d = false := by
      rcases h with h | ⟨dt, name, h1, h2, h3⟩
      · simp [shouldShowTab, h]
      · simp [shouldShowTab, h1, h2, h3]
    simp [deviceGet, hg]
  · intro h1 h2
    simp [deviceGet, h1, h2]

/-- Witness for C6 at a non-matching manufacturer and at missing creds. -/
theorem gate_and_credentials_witness :
    ((deviceGet { patMatch := fun n => n == "Cisco" }
        { serial := "X1", deviceType := some { manufacturer := some "Juniper" } }
        {}).showTab = false ∧
      (deviceGet { patMatch := fun n => n == "Cisco" }
        { serial := "X1", deviceType := some { manufacturer := some "Juniper" } }
        {}).trace = []) ∧
    ((deviceGet { patMatch := fun n => n == "Cisco" }
        { serial := "X1", deviceType := some { manufacturer := some "Cisco" } }
        {}).showTab = true ∧
      (deviceGet { patMatch := fun n => n == "Cisco" }
        { serial := "X1", deviceType := some { manufacturer := some "Cisco" } }
        {}).error = some credsMsg ∧
      (deviceGet { patMatch := fun n => n == "Cisco" }
        { serial := "X1", deviceType := some { manufacturer := some "Cisco" } }
        {}).trace = []) :=
  ⟨(gate_and_credentials { patMatch := fun n => n == "Cisco" }
      { serial := "X1", deviceType := some { manufacturer := some "Juniper" } } {}).1
      (Or.inr ⟨_, "Juniper", rfl, rfl, by decide⟩),
   (gate_and_credentials { patMatch := fun n => n == "Cisco" }
      { serial := "X1", deviceType := some { manufacturer := some "Cisco" } } {}).2
      (by decide) rfl⟩

/-- C10: a nonempty serial field that parses to no serials (only commas and
whitespace) falls back to the raw field as primary serial; the lookup
proceeds and the product-info call is issued with the raw string. -/
theorem raw_serial_fallback :
    ∀ (cfg : PluginConfig) (d : Device) (o : Oracle),
      d.serial ≠ "" →
      parseSerials d.serial = [] →
      primarySerial d = d.serial ∧
      (shouldShowTab cfg.patMatch d = true → clientConfigured cfg = true →
        (deviceGet cfg d o).serialNumber = some d.serial ∧
        Call.productInfo d.serial ∈ (deviceGet cfg d o).trace) := by
  intro cfg d o hne hp
  have hps : primarySerial d = d.serial := by
    simp [primarySerial, hp]
  refine ⟨hps, ?_⟩
  intro h1 h2
  constructor
  · simp [deviceGet, h1, h2, deviceGetMain, hps]
  · simp only [deviceGet, h1, h2, Bool.not_true, Bool.false_eq_true, if_false,
      deviceGetMain]
    simp [hps, List.mem_append]

/-- Witness for C10 at the comma-and-space serial field. -/
theorem raw_serial_fallback_witness :
    primarySerial { serial := ", ,", deviceType := some { manufacturer := some "C" } } = ", ," ∧
    (deviceGet cfgTrue { serial := ", ,", deviceType := some { manufacturer := some "C" } }
        {}).serialNumber = some ", ," ∧
    Call.productInfo ", ," ∈
      (deviceGet cfgTrue { serial := ", ,", deviceType := some { manufacturer := some "C" } }
        {}).trace := by
  have h := raw_serial_fallback cfgTrue
    { serial := ", ,", deviceType := some { manufacturer := some "C" } } {}
    (by decide) (by decide)
  exact ⟨h.1, (h.2 rfl rfl).1, (h.2 rfl rfl).2⟩

/-- C5: with resolved stack serials and no product-info error, the bulk
coverage call is issued with the primary serial first and all occurrences
of the primary removed from the stack list; any produced stack summary has
covered equal to the number of members whose is_covered is the literal
YES, notCovered the remainder, and the two sum to the total. -/
theorem stack_coverage_dedup_and_counts :
    ∀ (cfg : PluginConfig) (d : Device) (o : Oracle),
      shouldShowTab cfg.patMatch d = true →
      clientConfigured cfg = true →
      o.product.error = none →
      stackSerialsOf d ≠ [] →
      (Call.coverageBulk
          (primarySerial d ::
            (stackSerialsOf d).filter (fun s => !(s == primarySerial d))) ∈
        (deviceGet cfg d o).trace) ∧
      (∀ sc, (deviceGet cfg d o).stackCoverageData = some sc →
        sc.covered = (sc.members.filter (fun s => s.isCovered == some "YES")).length ∧
        sc.notCovered = sc.total - sc.covered ∧
        sc.covered + sc.notCovered = sc.total) := by
  intro cfg d o h1 h2 h3 h4
  have h4b : (stackSerialsOf d).isEmpty = false := by
    cases hs : stackSerialsOf d with
    | nil => exact absurd hs h4
    | cons a l => rfl
  constructor
  · simp only [deviceGet, h1, h2, Bool.not_true, Bool.false_eq_true, if_false,
      deviceGetMain]
    simp [h3, h4b, optTruthy, List.mem_append]
  · intro sc hsc
    simp only [deviceGet, h1, h2, Bool.not_true, Bool.false_eq_true, if_false,
      deviceGetMain] at hsc
    split at hsc
    · exact stackSummary_sound o.coverageBulk sc hsc
    · cases hsc

/-- Device with primary serial A and custom-field stack serials B, A, C. -/
def devStackA : Device :=
  { serial := "A",
    deviceType := some { manufacturer := some "Cisco", model := some "C9300-48P" },
    customFields := [("stack_serials", "B, A, C")] }

/-- Oracle with a successful product step and a bulk coverage response of
three members, one of them covered. -/
def oraStackA : Oracle :=
  { product := { productList := [{ basePid := some "PID" }] },
    coverageBulk := { serialNumbers :=
      [{ sn := "A", isCovered := some "YES" },
       { sn := "B", isCovered := some "NO" },
       { sn := "C", isCovered := none }] } }

/-- Witness for C5: primary A with stack B, A, C issues the bulk call with
serials A, B, C, and the produced counts are 1 covered of 3. -/
theorem stack_coverage_dedup_and_counts_witness :
    (primarySerial devStackA ::
      (stackSerialsOf devStackA).filter (fun s => !(s == primarySerial devStackA))) =
        ["A", "B", "C"] ∧
    Call.coverageBulk
        (primarySerial devStackA ::
          (stackSerialsOf devStackA).filter (fun s => !(s == primarySerial devStackA))) ∈
      (deviceGet cfgTrue devStackA oraStackA).trace ∧
    ({ members := oraStackA.coverageBulk.serialNumbers, total := 3, covered := 1,
       notCovered := 2, cached := false } : StackCovData).covered +
      ({ members := oraStackA.coverageBulk.serialNumbers, total := 3, covered := 1,
         notCovered := 2, cached := false } : StackCovData).notCovered =
      ({ members := oraStackA.coverageBulk.serialNumbers, total := 3, covered := 1,
         notCovered := 2, cached := false } : StackCovData).total :=
  ⟨by decide,
   (stack_coverage_dedup_and_counts cfgTrue devStackA oraStackA rfl rfl rfl (by decide)).1,
   ((stack_coverage_dedup_and_counts cfgTrue devStackA oraStackA rfl rfl rfl
      (by decide)).2 _ (by decide)).2.2⟩

/-- C4: the bulk coverage operation returns the explicit no-serial-numbers
error without touching cache or network when the input list is empty; on a
cache miss with more than 75 input serials the upstream call is issued
with exactly the first 75 of them. -/
theorem coverage_bulk_truncation :
    (∀ (c : List (String × CResult)) (mk : CResult),
      getCoverageSummaryBulkM [] c mk =
        ({ error := some "No serial numbers provided", cached := false, body := "" },
         c, none)) ∧
    (∀ (serials : List String) (c : List (String × CResult)) (mk : CResult),
      75 < serials.length →
      lookupResp c (coverageBulkKey serials) = none →
      (getCoverageSummaryBulkM serials c mk).2.2 = some (serials.take 75) ∧
      (serials.take 75).length = 75) := by
  constructor
  · intro c mk
    rfl
  · intro serials c mk hlen hmiss
    have hne : serials.isEmpty = false := by
      cases serials with
      | nil => simp at hlen
      | cons a l => rfl
    constructor
    · simp only [getCoverageSummaryBulkM, hne, Bool.false_eq_true, if_false, hmiss]
      by_cases herr : mk.error.isSome
      · simp [herr]
      · simp [herr]
    · rw [List.length_take]
      omega

/-- Witness for C4: 80 serials truncate to the first 75 on a cold cache. -/
theorem coverage_bulk_truncation_witness :
    (getCoverageSummaryBulkM ((List.range 80).map (fun i => "S" ++ toString i))
        [] {}).2.2 =
      some (((List.range 80).map (fun i => "S" ++ toString i)).take 75) ∧
    (((List.range 80).map (fun i => "S" ++ toString i)).take 75).length = 75 :=
  coverage_bulk_truncation.2 ((List.range 80).map (fun i => "S" ++ toString i))
    [] {} (by simp) rfl

/-- C8: a successful token exchange reporting expiry e stores the token in
the shared store with TTL exactly max(e - 300, 60) seconds and sets the
local expiry to now plus that TTL; the cache key is derived from the first
8 characters of the client id only. -/
theorem token_ttl_and_key :
    ∀ (cid : String) (now : Int) (st : TokState) (tok : String) (e : Int)
      (ex2 : List ExchangeOutcome),
      sharedCachedToken st (tokenCacheKey cid) = none →
      localTokenValid st now = false →
      (getToken cid now st (ExchangeOutcome.success tok e :: ex2)).1 = some tok ∧
      lookupShared
          (getToken cid now st (ExchangeOutcome.success tok e :: ex2)).2.1.shared
          (tokenCacheKey cid) = some (tok, max (e - 300) 60) ∧
      (getToken cid now st (ExchangeOutcome.success tok e :: ex2)).2.1.tok = some tok ∧
      (getToken cid now st (ExchangeOutcome.success tok e :: ex2)).2.1.tokExpiry =
        now + max (e - 300) 60 ∧
      (getToken cid now st (ExchangeOutcome.success tok e :: ex2)).2.2.2 =
        [TEvent.exchange] ∧
      tokenCacheKey cid = "cisco_support_token_" ++ cid.take 8 ∧
      (∀ cid2 : String, cid.take 8 = cid2.take 8 →
        tokenCacheKey cid = tokenCacheKey cid2) := by
  intro cid now st tok e ex2 h1 h2
  refine ⟨?_, ?_, ?_, ?_, ?_, rfl, ?_⟩
  · simp [getToken, h1, h2]
  · simp [getToken, h1, h2, lookupShared_setShared_self]
  · simp [getToken, h1, h2]
  · simp [getToken, h1, h2]
  · simp [getToken, h1, h2]
  · intro cid2 hc
    simp [tokenCacheKey, hc]

/-- Witness for C8: expiry 1000 gives a TTL of 700 under the truncated key. -/
theorem token_ttl_and_key_witness :
    (getToken "abcdefghij" 0 {} [ExchangeOutcome.success "TOK" 1000]).1 = some "TOK" ∧
    lookupShared (getToken "abcdefghij" 0 {} [ExchangeOutcome.success "TOK" 1000]).2.1.shared
        (tokenCacheKey "abcdefghij") = some ("TOK", max (1000 - 300) 60) ∧
    (getToken "abcdefghij" 0 {} [ExchangeOutcome.success "TOK" 1000]).2.1.tokExpiry =
      0 + max (1000 - 300) 60 ∧
    tokenCacheKey "abcdefghij" = "cisco_support_token_" ++ "abcdefghij".take 8 := by
  have h := token_ttl_and_key "abcdefghij" 0 {} "TOK" 1000 [] rfl rfl
  exact ⟨h.1, h.2.1, h.2.2.2.1, h.2.2.2.2.2.1⟩

/-- C9: a result carrying the error marker is never written to the response
cache by the cached endpoint methods, so the no-error cache invariant is
preserved and every from-cache result is error-free (shown for the two
cited methods, product info and bulk coverage). -/
theorem cache_never_stores_errors :
    ∀ (serial : String) (serials : List String) (c : List (String × CResult))
      (mk : CResult),
      (∀ p ∈ c, p.2.error = none) →
      mk.cached = false →
      ((∀ p ∈ (getProductInfoM serial c mk).2, p.2.error = none) ∧
        ((getProductInfoM serial c mk).1.cached = true →
          (getProductInfoM serial c mk).1.error = none)) ∧
      ((∀ p ∈ (getCoverageSummaryBulkM serials c mk).2.1, p.2.error = none) ∧
        ((getCoverageSummaryBulkM serials c mk).1.cached = true →
          (getCoverageSummaryBulkM serials c mk).1.error = none)) := by
  intro serial serials c mk hinv hmk
  constructor
  · cases hl : lookupResp c ("cisco_product_" ++ serial) with
    | some hit =>
      simp only [getProductInfoM, hl]
      refine ⟨hinv, ?_⟩
      intro _
      obtain ⟨p, hp, hpv⟩ := lookupResp_exists_mem c _ hit hl
      have := hinv p hp
      rw [hpv] at this
      simpa using this
    | none =>
      simp only [getProductInfoM, hl]
      by_cases herr : mk.error.isSome
      · simp only [herr, if_true]
        refine ⟨hinv, ?_⟩
        intro hcc
        rw [hmk] at hcc
        cases hcc
      · simp only [herr, Bool.false_eq_true, if_false]
        refine ⟨?_, ?_⟩
        · intro p hp
          rcases mem_setResp c _ _ p hp with h | h
          · rw [h]
            simpa using herr
          · exact hinv p h
        · intro _
          simpa using herr
  · by_cases hemp : serials.isEmpty
    · simp only [getCoverageSummaryBulkM, hemp, if_true]
      exact ⟨hinv, by intro h; cases h⟩
    · have hemp2 : serials.isEmpty = false := by simpa using hemp
      cases hl : lookupResp c (coverageBulkKey serials) with
      | some hit =>
        simp only [getCoverageSummaryBulkM, hemp2, Bool.false_eq_true, if_false, hl]
        refine ⟨hinv, ?_⟩
        intro _
        obtain ⟨p, hp, hpv⟩ := lookupResp_exists_mem c _ hit hl
        have := hinv p hp
        rw [hpv] at this
        simpa using this
      | none =>
        simp only [getCoverageSummaryBulkM, hemp2, Bool.false_eq_true, if_false, hl]
        by_cases herr : mk.error.isSome
        · simp only [herr, if_true]
          refine ⟨hinv, ?_⟩
          intro hcc
          rw [hmk] at hcc
          cases hcc
        · simp only [herr, Bool.false_eq_true, if_false]
          refine ⟨?_, ?_⟩
          · intro p hp
            rcases mem_setResp c _ _ p hp with h | h
            · rw [h]
              simpa using herr
            · exact hinv p h
          · intro _
            simpa using herr

/-- Witness for C9: an error result on a cold cache leaves the cache empty
and is not marked from-cache. -/
theorem cache_never_stores_errors_witness :
    ((∀ p ∈ (getProductInfoM "SN1" [] { error := some "x" }).2, p.2.error = none) ∧
      ((getProductInfoM "SN1" [] { error := some "x" }).1.cached = true →
        (getProductInfoM "SN1" [] { error := some "x" }).1.error = none)) ∧
    ((∀ p ∈ (getCoverageSummaryBulkM ["A"] [] { error := some "x" }).2.1,
        p.2.error = none) ∧
      ((getCoverageSummaryBulkM ["A"] [] { error := some "x" }).1.cached = true →
        (getCoverageSummaryBulkM ["A"] [] { error := some "x" }).1.error = none)) :=
  cache_never_stores_errors "SN1" ["A"] [] { error := some "x" }
    (by intro p hp; cases hp) rfl

/-- C3 counterexample: a data request with a valid cached token receives a
401; the token is invalidated and re-exchanged, but the re-exchange fails,
so no retry request is issued (the event list holds exactly one GET) and
the original 401 surfaces as an error result. The claim that every 401
triggers one retry of the request is therefore false on the code. -/
theorem retry_not_issued_when_reauth_fails :
    (makeRequest "abcdefgh" 0
        { shared := [("cisco_support_token_abcdefgh", "T0", 100)],
          tok := none, tokExpiry := 0 }
        [ExchangeOutcome.failure] [GetOutcome.resp 401 "x"]).2.2 =
      [TEvent.getReq, TEvent.invalidate, TEvent.exchange] ∧
    (makeRequest "abcdefgh" 0
        { shared := [("cisco_support_token_abcdefgh", "T0", 100)],
          tok := none, tokExpiry := 0 }
        [ExchangeOutcome.failure] [GetOutcome.resp 401 "x"]).1 =
      ReqResult.err "HTTP error 401" := by
  decide

/-- C3 amended: a 401 on a data request (with a valid cached token) triggers
exactly one invalidation and one re-exchange; when the re-exchange yields
a token, exactly one retry is issued and a second 401 surfaces as an error
result rather than another retry; when the re-exchange fails no retry is
issued and the original 401 surfaces as an error result; timeouts,
transport errors and HTTP error statuses always come back as error
results. -/
theorem single_401_retry_behavior :
    ∀ (cid : String) (now : Int) (st : TokState) (t : String) (ttl : Int)
      (body : String),
      lookupShared st.shared (tokenCacheKey cid) = some (t, ttl) →
      t ≠ "" →
      (∀ (t2 : String) (e2 : Int) (ex2 : List ExchangeOutcome)
          (rest : List GetOutcome),
        t2 ≠ "" →
        (makeRequest cid now st (ExchangeOutcome.success t2 e2 :: ex2)
            (GetOutcome.resp 401 body :: rest)).2.2 =
          [TEvent.getReq, TEvent.invalidate, TEvent.exchange, TEvent.getReq] ∧
        (∀ (b2 : String) (rest2 : List GetOutcome),
          rest = GetOutcome.resp 401 b2 :: rest2 →
          (makeRequest cid now st (ExchangeOutcome.success t2 e2 :: ex2)
              (GetOutcome.resp 401 body :: rest)).1 =
            ReqResult.err "HTTP error 401") ∧
        (∀ (rest2 : List GetOutcome),
          rest = GetOutcome.timeout :: rest2 →
          (makeRequest cid now st (ExchangeOutcome.success t2 e2 :: ex2)
              (GetOutcome.resp 401 body :: rest)).1 =
            ReqResult.err "Request timed out") ∧
        (∀ (m : String) (rest2 : List GetOutcome),
          rest = GetOutcome.transportErr m :: rest2 →
          (makeRequest cid now st (ExchangeOutcome.success t2 e2 :: ex2)
              (GetOutcome.resp 401 body :: rest)).1 = ReqResult.err m)) ∧
      (∀ (ex2 : List ExchangeOutcome) (rest : List GetOutcome),
        (makeRequest cid now st (ExchangeOutcome.failure :: ex2)
            (GetOutcome.resp 401 body :: rest)).2.2 =
          [TEvent.getReq, TEvent.invalidate, TEvent.exchange] ∧
        (makeRequest cid now st (ExchangeOutcome.failure :: ex2)
            (GetOutcome.resp 401 body :: rest)).1 =
          ReqResult.err "HTTP error 401") ∧
      (∀ (ex : List ExchangeOutcome) (rest : List GetOutcome),
        (makeRequest cid now st ex (GetOutcome.timeout :: rest)).1 =
          ReqResult.err "Request timed out") ∧
      (∀ (m : String) (ex : List ExchangeOutcome) (rest : List GetOutcome),
        (makeRequest cid now st ex (GetOutcome.transportErr m :: rest)).1 =
          ReqResult.err m) ∧
      (∀ (s : Nat) (b : String) (ex : List ExchangeOutcome)
          (rest : List GetOutcome),
        s ≠ 401 → 400 ≤ s → s < 600 →
        (makeRequest cid now st ex (GetOutcome.resp s b :: rest)).1 =
          ReqResult.err ("HTTP error " ++ toString s)) := by
  intro cid now st t ttl body hlk ht
  have ht2 : (t == "") = false := by simp [ht]
  have hshared : sharedCachedToken st (tokenCacheKey cid) = some t := by
    simp [sharedCachedToken, hlk, ht2]
  refine ⟨?_, ?_, ?_, ?_, ?_⟩
  · intro t2 e2 ex2 rest ht2ne
    have ht2b : (t2 == "") = false := by simp [ht2ne]
    refine ⟨?_, ?_, ?_, ?_⟩
    · cases hm : rest.head?.getD GetOutcome.timeout <;>
        simp [makeRequest, getToken, hshared, ht, ht2,
          sharedCachedToken_delShared, localTokenValid_none, ht2ne, ht2b, hm]
    · intro b2 rest2 hrest
      subst hrest
      simp [makeRequest, getToken, hshared, ht, ht2,
        sharedCachedToken_delShared, localTokenValid_none, ht2ne, ht2b,
        raiseForStatus]
      decide
    · intro rest2 hrest
      subst hrest
      simp [makeRequest, getToken, hshared, ht, ht2,
        sharedCachedToken_delShared, localTokenValid_none, ht2ne, ht2b]
    · intro m rest2 hrest
      subst hrest
      simp [makeRequest, getToken, hshared, ht, ht2,
        sharedCachedToken_delShared, localTokenValid_none, ht2ne, ht2b]
  · intro ex2 rest
    constructor
    · simp [makeRequest, getToken, hshared, ht, ht2,
        sharedCachedToken_delShared, localTokenValid_none]
    · simp [makeRequest, getToken, hshared, ht, ht2,
        sharedCachedToken_delShared, localTokenValid_none, raiseForStatus]
      decide
  · intro ex rest
    simp [makeRequest, getToken, hshared, ht, ht2]
  · intro m ex rest
    simp [makeRequest, getToken, hshared, ht, ht2]
  · intro s b ex rest hs h4 h6
    have hsb : (s == 401) = false := by simp [hs]
    simp [makeRequest, getToken, hshared, ht, ht2, hsb, hs, raiseForStatus, h4, h6]

/-- Witness for C3 amended: with a valid cached token and a successful
re-exchange, a 401 then a 200 produce exactly one invalidation, one
re-exchange and one retry, and the retry body is returned. -/
theorem single_401_retry_behavior_witness :
    (makeRequest "abcdefgh" 0
        { shared := [("cisco_support_token_abcdefgh", "T0", 100)],
          tok := none, tokExpiry := 0 }
        [ExchangeOutcome.success "T1" 3600]
        [GetOutcome.resp 401 "x", GetOutcome.resp 401 "y"]).2.2 =
      [TEvent.getReq, TEvent.invalidate, TEvent.exchange, TEvent.getReq] ∧
    (makeRequest "abcdefgh" 0
        { shared := [("cisco_support_token_abcdefgh", "T0", 100)],
          tok := none, tokExpiry := 0 }
        [ExchangeOutcome.success "T1" 3600]
        [GetOutcome.resp 401 "x", GetOutcome.resp 401 "y"]).1 =
      ReqResult.err "HTTP error 401" := by
  have h := single_401_retry_behavior "abcdefgh" 0
    { shared := [("cisco_support_token_abcdefgh", "T0", 100)],
      tok := none, tokExpiry := 0 } "T0" 100 "x" rfl (by decide)
  have h2 := h.1 "T1" 3600 [] [GetOutcome.resp 401 "y"] (by decide)
  exact ⟨h2.1, h2.2.1 "y" [] rfl⟩

end NetboxCisco
